import Mathlib

/-!
Verification of the `stacked-alpha-video` rendering core.

The development shallowly embeds the two relevant modules:

* `gl-helpers.ts` — shader compilation/linking, context setup, the
  premultiplied-alpha uniform, and the per-frame draw (`drawVideo`), plus the
  exact arithmetic of the fragment shader (modelled over `Rat`, since the
  shader uses only halving, `mix`, and one multiply);
* `StackedAlphaVideo.ts` — the custom element's lifecycle state machine:
  debounced state updates (`#updateState`), the microtask evaluation body,
  the per-display-frame callback (`#frame`), and source (re)binding
  (`#videoChange`).

WebGL driver behaviour (can a context be created, do shaders compile, what
the info logs say) is abstracted into a `GLDriver` record of pure response
functions; GL resource ids are natural numbers.  Browser scheduling
(microtasks, `requestAnimationFrame`, event listeners with abort signals) is
made explicit: the component state records the queued evaluation count, the
set of outstanding animation-frame handles, and the listener groups together
with which `AbortController`s have been aborted.  An inductive `Step`
relation collects every entry point the browser can invoke, and reachability
is its reflexive-transitive closure from the constructor's result.
-/

namespace StackedAlphaVideo

/-! ## GL helpers model (`gl-helpers.ts`) -/

/-- The two shader stages (`gl.FRAGMENT_SHADER` / `gl.VERTEX_SHADER`). -/
inductive ShaderType where
  | fragment
  | vertex
deriving DecidableEq, Repr

/-- Abstract WebGL driver behaviour: which creation calls succeed, which
sources compile, whether the program links, and the diagnostic info logs
(`getShaderInfoLog` / `getProgramInfoLog` return `string | null`). -/
structure GLDriver where
  contextOk : Bool
  createShaderOk : Bool
  compileOk : String → ShaderType → Bool
  shaderInfoLog : String → ShaderType → Option String
  createProgramOk : Bool
  linkOk : Bool
  programInfoLog : Option String

/-- GL resource bookkeeping: allocated and still-live shader/program ids,
and the source attached to each shader via `shaderSource`. -/
structure GLRes where
  nextShaderId : Nat := 0
  liveShaders : List Nat := []
  shaderSources : List (Nat × String × ShaderType) := []
  nextProgramId : Nat := 0
  livePrograms : List Nat := []
deriving DecidableEq, Repr

/-- JavaScript `a || b` on a nullable string: `null` and `""` are falsy. -/
def jsStringOr (s : Option String) (d : String) : String :=
  match s with
  | none => d
  | some t => if t = "" then d else t

/-- `loadShader` from `gl-helpers.ts`: create a shader (throwing when the
driver returns null), attach the source, compile, and on a failed
`COMPILE_STATUS` read the info log, delete the shader and throw the log text
(falling back to `"unknown error"`).  The thrown message is the `.error`
payload; the returned `GLRes` keeps the side effects that happened before
the throw. -/
def loadShader (drv : GLDriver) (st : GLRes) (source : String) (ty : ShaderType) :
    GLRes × Except String Nat :=
  if !drv.createShaderOk then
    (st, .error "Unable to create shader")
  else
    let shader := st.nextShaderId
    let st1 : GLRes :=
      { st with
        nextShaderId := shader + 1
        liveShaders := shader :: st.liveShaders
        shaderSources := (shader, source, ty) :: st.shaderSources }
    if !drv.compileOk source ty then
      let error := drv.shaderInfoLog source ty
      let st2 : GLRes := { st1 with liveShaders := st1.liveShaders.erase shader }
      (st2, .error (jsStringOr error "unknown error"))
    else
      (st1, .ok shader)

/-- `createProgram` from `gl-helpers.ts`: create a program (throwing when
the driver returns null), attach the shaders, link, and on a failed
`LINK_STATUS` read the info log, delete the program and throw the log text
(falling back to `"unknown error"`). -/
def createProgram (drv : GLDriver) (st : GLRes) (shaders : List Nat) :
    GLRes × Except String Nat :=
  if !drv.createProgramOk then
    (st, .error "Unable to create program")
  else
    let program := st.nextProgramId
    let st1 : GLRes :=
      { st with
        nextProgramId := program + 1
        livePrograms := program :: st.livePrograms }
    let _ := shaders
    if !drv.linkOk then
      let error := drv.programInfoLog
      let st2 : GLRes := { st1 with livePrograms := st1.livePrograms.erase program }
      (st2, .error (jsStringOr error "unknown error"))
    else
      (st1, .ok program)

/-- The fragment shader source string (braces escaped). -/
def fragmentShaderSource : String :=
  "\nprecision mediump float;\n\nuniform sampler2D u_frame;\n\nuniform float u_premultipliedAlpha;\n\nvarying vec2 v_texCoord;\n\nvoid main() \x7b\n  vec2 colorCoord = vec2(v_texCoord.x, v_texCoord.y * 0.5);\n  vec2 alphaCoord = vec2(v_texCoord.x, 0.5 + v_texCoord.y * 0.5);\n\n  vec4 color = texture2D(u_frame, colorCoord);\n  float alpha = texture2D(u_frame, alphaCoord).r;\n\n  gl_FragColor = vec4(color.rgb * mix(alpha, 1.0, u_premultipliedAlpha), alpha);\n\x7d\n"

/-- The vertex shader source string (braces escaped). -/
def vertexShaderSource : String :=
  "\nprecision mediump float;\nattribute vec2 a_position;\nuniform mat3 u_matrix;\nvarying vec2 v_texCoord;\n\nvoid main() \x7b\n  gl_Position = vec4(u_matrix * vec3(a_position, 1), 1);\n  v_texCoord = a_position;\n\x7d\n"

/-- The unit-quad vertex data (two triangles, 6 vertices). -/
def unitQuad : List Rat :=
  [0, 0, 1, 0, 0, 1, 0, 1, 1, 0, 1, 1]

/-- A live GL drawing context as set up by `setupGLContext`: the backing
canvas and viewport dimensions, the linked program, the uploaded vertex and
matrix data, whether the premultiplied-alpha uniform location was recorded
(the `premultipliedAlphaLocations` WeakMap entry), the current value of that
uniform, the single texture object, and its sampling parameters. -/
structure GpuContext where
  res : GLRes
  canvasWidth : Nat
  canvasHeight : Nat
  viewportW : Nat
  viewportH : Nat
  program : Nat
  positions : List Rat
  matrixUniform : List Int
  premultLocSet : Bool
  premultUniform : Rat
  texture : Nat
  wrapClampToEdge : Bool
  filterNearest : Bool
deriving DecidableEq, Repr

/-- `setPremultipliedAlpha` from `gl-helpers.ts`: write 1.0/0.0 to the
uniform location recorded for this context (a `uniform1f` on a missing
location is ignored by WebGL). -/
def setPremultipliedAlpha (ctx : GpuContext) (premultipliedAlpha : Bool) : GpuContext :=
  if ctx.premultLocSet then
    { ctx with premultUniform := if premultipliedAlpha then 1 else 0 }
  else ctx

/-- `setupGLContext` from `gl-helpers.ts`: request the context (throwing
when unavailable), compile the fragment then the vertex shader, link the
program, record the premultiplied-alpha uniform location, initialise the
uniform to 0 via `setPremultipliedAlpha(context, false)`, upload the unit
quad and the fixed matrix, and configure the single texture with
clamp-to-edge wrapping and nearest filtering.  Any shader/link failure
propagates and the caller receives no context. -/
def setupGLContext (drv : GLDriver) (st : GLRes) (canvasW canvasH : Nat) :
    GLRes × Except String GpuContext :=
  if !drv.contextOk then
    (st, .error "Couldn't create GL context")
  else
    match loadShader drv st fragmentShaderSource ShaderType.fragment with
    | (st1, .error e) => (st1, .error e)
    | (st1, .ok frag) =>
      match loadShader drv st1 vertexShaderSource ShaderType.vertex with
      | (st2, .error e) => (st2, .error e)
      | (st2, .ok vert) =>
        match createProgram drv st2 [frag, vert] with
        | (st3, .error e) => (st3, .error e)
        | (st3, .ok program) =>
          let ctx : GpuContext :=
            { res := st3
              canvasWidth := canvasW
              canvasHeight := canvasH
              viewportW := canvasW
              viewportH := canvasH
              program := program
              positions := unitQuad
              matrixUniform := [2, 0, 0, 0, -2, 0, -1, 1, 1]
              premultLocSet := true
              premultUniform := 0
              texture := 0
              wrapClampToEdge := true
              filterNearest := true }
          (st3, .ok (setPremultipliedAlpha ctx false))

/-- The relevant observable fields of an `HTMLVideoElement`. -/
structure Video where
  videoWidth : Nat
  videoHeight : Nat
  paused : Bool
  ended : Bool
  readyState : Nat
  autoplay : Bool
deriving DecidableEq, Repr

/-- GL draw primitive kinds used by the renderer. -/
inductive DrawMode where
  | triangles
deriving DecidableEq, Repr

/-- The externally visible effects of one `drawVideo` call: whether the
backing store was reallocated (and the viewport re-set), which texture
object received the `texImage2D` upload, how many texture objects were
created, and the issued draw call. -/
structure DrawEffects where
  reallocated : Bool
  viewportSet : Bool
  uploadedTexture : Nat
  texturesCreated : Nat
  drawMode : DrawMode
  drawFirst : Nat
  drawCount : Nat
deriving DecidableEq, Repr

/-- `drawVideo` from `gl-helpers.ts`: resize canvas and viewport to
`(videoWidth, ⌊videoHeight / 2⌋)` only when different from the current
canvas size, upload the frame into the bound (reused) texture, and issue a
single 6-vertex `TRIANGLES` draw. -/
def drawVideo (ctx : GpuContext) (video : Video) : GpuContext × DrawEffects :=
  let width := video.videoWidth
  let height := video.videoHeight / 2
  let resize : Bool := ctx.canvasWidth != width || ctx.canvasHeight != height
  let ctx1 : GpuContext :=
    if resize then
      { ctx with
        canvasWidth := width
        canvasHeight := height
        viewportW := width
        viewportH := height }
    else ctx
  (ctx1,
   { reallocated := resize
     viewportSet := resize
     uploadedTexture := ctx1.texture
     texturesCreated := 0
     drawMode := DrawMode.triangles
     drawFirst := 0
     drawCount := 6 })

/-! ## Fragment stage arithmetic

The fragment shader's arithmetic is exact over the rationals used here
(halving, `mix`, one multiply), so it is modelled over `Rat`, with the
texture abstracted as a sampling function. -/

/-- A 2-component vector of rationals (texture coordinates). -/
structure Vec2 where
  x : Rat
  y : Rat
deriving DecidableEq, Repr

/-- A 4-component vector of rationals (an RGBA texel / fragment). -/
structure Vec4 where
  r : Rat
  g : Rat
  b : Rat
  a : Rat
deriving DecidableEq, Repr

/-- GLSL `mix(x, y, a) = x·(1−a) + y·a`. -/
def glslMix (x y a : Rat) : Rat := x * (1 - a) + y * a

/-- The fragment shader `main`: sample color at `(x, y·0.5)` and alpha (red
channel) at `(x, 0.5 + y·0.5)`, output
`vec4(color.rgb * mix(alpha, 1.0, u_premultipliedAlpha), alpha)`. -/
def fragmentMain (sample : Vec2 → Vec4) (uPremultipliedAlpha : Rat) (vTexCoord : Vec2) :
    Vec4 :=
  let colorCoord : Vec2 := ⟨vTexCoord.x, vTexCoord.y * (1 / 2)⟩
  let alphaCoord : Vec2 := ⟨vTexCoord.x, 1 / 2 + vTexCoord.y * (1 / 2)⟩
  let color := sample colorCoord
  let alpha := (sample alphaCoord).r
  { r := color.r * glslMix alpha 1 uPremultipliedAlpha
    g := color.g * glslMix alpha 1 uPremultipliedAlpha
    b := color.b * glslMix alpha 1 uPremultipliedAlpha
    a := alpha }

/-! ## Component model (`StackedAlphaVideo.ts`) -/

/-- `videoIsPlaying`: `!video.paused && !video.ended && video.readyState > 2`. -/
def videoIsPlaying (video : Video) : Bool :=
  !video.paused && !video.ended && decide (video.readyState > 2)

/-- The component's `#state` record (`RenderState`). -/
structure State where
  videoPlaying : Bool
  intersecting : Bool
  connected : Bool
deriving DecidableEq, Repr

/-- A `Partial<State>` argument to `#updateState`: each field optionally
present. -/
structure PartialState where
  videoPlaying : Option Bool := none
  intersecting : Option Bool := none
  connected : Option Bool := none
deriving DecidableEq, Repr

/-- `Object.assign(this.#state, newState)`: fields present in the partial
overwrite, absent fields are kept. -/
def mergeState (s : State) (p : PartialState) : State :=
  { videoPlaying := p.videoPlaying.getD s.videoPlaying
    intersecting := p.intersecting.getD s.intersecting
    connected := p.connected.getD s.connected }

/-- One registered group of video event listeners, identified by the
`AbortController` it was registered with. -/
structure Binding where
  controllerId : Nat
deriving DecidableEq, Repr

/-- The whole component instance together with the browser-scheduling state
it interacts with: queued evaluation microtasks (`queuedEvals`), outstanding
`requestAnimationFrame` handles, registered listener groups and the set of
aborted controllers, plus effect counters (context losses, setup attempts,
console warnings, frames drawn, queued autoplay kick tasks). -/
structure Component where
  driver : GLDriver
  state : State
  pendingStateUpdate : Bool
  queuedEvals : Nat
  context : Option GpuContext
  video : Option Video
  premultAttr : Bool
  frameHandle : Nat
  nextRafHandle : Nat
  outstandingRafs : List Nat
  nextControllerId : Nat
  videoListenersController : Option Nat
  abortedControllers : List Nat
  listenerGroups : List Binding
  loseContextCalls : Nat
  setupAttempts : Nat
  warnings : Nat
  framesDrawn : Nat
  playTasksQueued : Nat

/-- `requestAnimationFrame`: allocate a fresh handle, add it to the
outstanding set, and return it. -/
def reqAnimationFrame (c : Component) : Component × Nat :=
  let h := c.nextRafHandle
  ({ c with nextRafHandle := h + 1, outstandingRafs := h :: c.outstandingRafs }, h)

/-- `cancelAnimationFrame`: remove the handle from the outstanding set (a
no-op when the handle is not outstanding). -/
def cancelAnimFrame (c : Component) (h : Nat) : Component :=
  { c with outstandingRafs := c.outstandingRafs.erase h }

/-- `#updateState`: merge the partial into `#state`; if an evaluation
microtask is already pending, return; otherwise set the pending flag and
queue exactly one evaluation microtask. -/
def updateState (c : Component) (p : PartialState) : Component :=
  let c1 := { c with state := mergeState c.state p }
  if c1.pendingStateUpdate then c1
  else { c1 with pendingStateUpdate := true, queuedEvals := c1.queuedEvals + 1 }

/-- The body of the evaluation microtask queued by `#updateState`: clear the
pending flag (consuming the queued microtask), read `connected` and
`intersecting`, cancel the stored animation-frame handle unconditionally;
when not connected or not intersecting, lose and clear any existing context
and stop; otherwise request exactly one animation frame. -/
def runEval (c : Component) : Component :=
  let c1 := { c with pendingStateUpdate := false, queuedEvals := c.queuedEvals - 1 }
  let c2 := cancelAnimFrame c1 c1.frameHandle
  if !c2.state.connected || !c2.state.intersecting then
    match c2.context with
    | some _ => { c2 with context := none, loseContextCalls := c2.loseContextCalls + 1 }
    | none => c2
  else
    let r := reqAnimationFrame c2
    { r.1 with frameHandle := r.2 }

/-- The shared tail of `#frame` once a context is in hand: draw the current
video frame, and when `#state.videoPlaying` request another frame callback,
storing its handle. -/
def drawAndMaybeLoop (c : Component) (v : Video) (ctx : GpuContext) : Component :=
  let d := drawVideo ctx v
  let c1 := { c with context := some d.1, framesDrawn := c.framesDrawn + 1 }
  if c1.state.videoPlaying then
    let r := reqAnimationFrame c1
    { r.1 with frameHandle := r.2 }
  else c1

/-- `#frame`, the animation-frame callback: return when no video is bound;
when no context exists, replace the canvas with a fresh one (300×150) and
try `setupGLContext`, warning and returning on failure, and applying the
current premultiplied-alpha attribute on success; then draw one frame and
re-request a frame callback only when `#state.videoPlaying`. -/
def frame (c : Component) : Component :=
  match c.video with
  | none => c
  | some v =>
    match c.context with
    | some ctx => drawAndMaybeLoop c v ctx
    | none =>
      let c1 := { c with setupAttempts := c.setupAttempts + 1 }
      match (setupGLContext c1.driver {} 300 150).2 with
      | .error _ => { c1 with warnings := c1.warnings + 1 }
      | .ok ctx =>
        let ctx1 := setPremultipliedAlpha ctx c1.premultAttr
        drawAndMaybeLoop { c1 with context := some ctx1 } v ctx1

/-- A child element of the component: either a `<video>` element or some
other element. -/
inductive Child where
  | videoEl (v : Video)
  | otherEl
deriving DecidableEq, Repr

/-- `#videoChange`: abort the previous listener controller first; for a
non-video child warn, clear `#video` and push `videoPlaying := false`; for
an absent child clear `#video` and push `videoPlaying := false`; otherwise
store the video, queue the autoplay kick task when `autoplay` is set, push
the initial `videoIsPlaying` value, and register a fresh listener group
under a fresh `AbortController`. -/
def videoChange (c : Component) (newChild : Option Child) : Component :=
  let c1 :=
    match c.videoListenersController with
    | some k => { c with abortedControllers := k :: c.abortedControllers }
    | none => c
  match newChild with
  | some Child.otherEl =>
    let c2 := { c1 with warnings := c1.warnings + 1, video := none }
    updateState c2 { videoPlaying := some false }
  | none =>
    let c2 := { c1 with video := none }
    updateState c2 { videoPlaying := some false }
  | some (Child.videoEl v) =>
    let c2 := { c1 with video := some v }
    let c3 :=
      if v.autoplay then { c2 with playTasksQueued := c2.playTasksQueued + 1 } else c2
    let c4 := updateState c3 { videoPlaying := some (videoIsPlaying v) }
    let k := c4.nextControllerId
    { c4 with
      nextControllerId := k + 1
      videoListenersController := some k
      listenerGroups := ⟨k⟩ :: c4.listenerGroups }

/-- A video event (`playing`/`stalled`/`emptied`/`ended`/`pause`) dispatched
to a registered listener group: the listener runs only when its group is
registered and its controller has not been aborted, and then pushes
`videoIsPlaying` of the element's current state. -/
def fireVideoEvent (c : Component) (b : Binding) (currentVideo : Video) : Component :=
  if b ∈ c.listenerGroups ∧ b.controllerId ∉ c.abortedControllers then
    updateState c { videoPlaying := some (videoIsPlaying currentVideo) }
  else c

/-- `attributeChangedCallback`: for `premultipliedalpha`, return when no
context exists, otherwise call `setPremultipliedAlpha` with
`newValue !== null`. -/
def attributeChangedCallback (c : Component) (name : String) (newValue : Option String) :
    Component :=
  if name = "premultipliedalpha" then
    match c.context with
    | none => c
    | some ctx => { c with context := some (setPremultipliedAlpha ctx newValue.isSome) }
  else c

/-- Setting/removing the observed `premultipliedalpha` attribute: the
attribute value changes and `attributeChangedCallback` fires with the new
value (`""` when present, `null` when absent). -/
def setPremultAttrStep (c : Component) (present : Bool) : Component :=
  let c1 := { c with premultAttr := present }
  attributeChangedCallback c1 "premultipliedalpha" (if present then some "" else none)

/-- `connectedCallback`. -/
def connectedCallback (c : Component) : Component :=
  updateState c { connected := some true }

/-- `disconnectedCallback`. -/
def disconnectedCallback (c : Component) : Component :=
  updateState c { connected := some false }

/-- The `IntersectionObserver` callback. -/
def intersectionChange (c : Component) (isIntersecting : Bool) : Component :=
  updateState c { intersecting := some isIntersecting }

/-- The component as built by the constructor: all state flags false, no
context, no binding, then `#videoChange(this.firstElementChild)`. -/
def newComponent (drv : GLDriver) (firstChild : Option Child) : Component :=
  videoChange
    { driver := drv
      state := { videoPlaying := false, intersecting := false, connected := false }
      pendingStateUpdate := false
      queuedEvals := 0
      context := none
      video := none
      premultAttr := false
      frameHandle := 0
      nextRafHandle := 1
      outstandingRafs := []
      nextControllerId := 0
      videoListenersController := none
      abortedControllers := []
      listenerGroups := []
      loseContextCalls := 0
      setupAttempts := 0
      warnings := 0
      framesDrawn := 0
      playTasksQueued := 0 }
    firstChild

/-- Everything the browser can invoke on the component: observer callbacks,
lifecycle callbacks, video events, attribute changes, the queued evaluation
microtask (only when one is queued), an outstanding animation-frame callback
firing (the browser consumes the handle, then runs `#frame`), and the bound
video element's own state mutating. -/
inductive Step : Component → Component → Prop where
  | intersection (c : Component) (b : Bool) : Step c (intersectionChange c b)
  | connect (c : Component) : Step c (connectedCallback c)
  | disconnect (c : Component) : Step c (disconnectedCallback c)
  | childChange (c : Component) (newChild : Option Child) : Step c (videoChange c newChild)
  | videoEvent (c : Component) (b : Binding) (v : Video) : Step c (fireVideoEvent c b v)
  | attrChange (c : Component) (present : Bool) : Step c (setPremultAttrStep c present)
  | evalMicrotask (c : Component) : 0 < c.queuedEvals → Step c (runEval c)
  | rafFire (c : Component) (h : Nat) : h ∈ c.outstandingRafs →
      Step c (frame (cancelAnimFrame c h))
  | videoMutate (c : Component) (v : Video) : c.video.isSome →
      Step c { c with video := some v }

/-- Reachability from a freshly constructed component. -/
def Reachable (drv : GLDriver) (firstChild : Option Child) (c : Component) : Prop :=
  Relation.ReflTransGen Step (newComponent drv firstChild) c

/-! ## Invariants -/

/-- The evaluation-debounce invariant: the number of queued evaluation
microtasks is 1 exactly when the pending flag is set, else 0. -/
def EvalInv (c : Component) : Prop :=
  c.queuedEvals = if c.pendingStateUpdate then 1 else 0

/-- The frame-scheduling invariant: at most one outstanding
animation-frame request, its handle is the stored `#frameHandle`, and the
stored handle predates the allocator. -/
def RafInv (c : Component) : Prop :=
  c.outstandingRafs.length ≤ 1 ∧
  (∀ h ∈ c.outstandingRafs, h = c.frameHandle) ∧
  c.frameHandle < c.nextRafHandle

/-- The listener groups whose controller has not been aborted. -/
def activeBindings (c : Component) : List Binding :=
  c.listenerGroups.filter (fun b => decide (b.controllerId ∉ c.abortedControllers))

/-- The source-binding invariant: every non-aborted listener group belongs
to the current controller, all controller ids predate the allocator, and at
most one listener group is active. -/
def BindInv (c : Component) : Prop :=
  (∀ b ∈ c.listenerGroups, b.controllerId ∉ c.abortedControllers →
      c.videoListenersController = some b.controllerId) ∧
  (∀ k, c.videoListenersController = some k → k < c.nextControllerId) ∧
  (∀ a ∈ c.abortedControllers, a < c.nextControllerId) ∧
  (∀ b ∈ c.listenerGroups, b.controllerId < c.nextControllerId) ∧
  (activeBindings c).length ≤ 1

/-- The conjunction of all maintained invariants. -/
def Inv (c : Component) : Prop := EvalInv c ∧ RafInv c ∧ BindInv c

/-! ### Field-preservation lemmas -/

theorem updateState_pending (c : Component) (p : PartialState) :
    (updateState c p).pendingStateUpdate = true := by
  simp only [updateState]
  split <;> simp_all

theorem updateState_queued (c : Component) (p : PartialState) :
    (updateState c p).queuedEvals =
      if c.pendingStateUpdate then c.queuedEvals else c.queuedEvals + 1 := by
  simp only [updateState]
  split <;> simp_all

theorem updateState_state (c : Component) (p : PartialState) :
    (updateState c p).state = mergeState c.state p := by
  simp only [updateState]
  split <;> rfl

/-- `#updateState` touches only the state, the pending flag and the
microtask queue. -/
theorem updateState_rest (c : Component) (p : PartialState) :
    (updateState c p).outstandingRafs = c.outstandingRafs ∧
    (updateState c p).frameHandle = c.frameHandle ∧
    (updateState c p).nextRafHandle = c.nextRafHandle ∧
    (updateState c p).listenerGroups = c.listenerGroups ∧
    (updateState c p).abortedControllers = c.abortedControllers ∧
    (updateState c p).videoListenersController = c.videoListenersController ∧
    (updateState c p).nextControllerId = c.nextControllerId ∧
    (updateState c p).context = c.context ∧
    (updateState c p).video = c.video ∧
    (updateState c p).driver = c.driver ∧
    (updateState c p).premultAttr = c.premultAttr ∧
    (updateState c p).loseContextCalls = c.loseContextCalls ∧
    (updateState c p).setupAttempts = c.setupAttempts ∧
    (updateState c p).framesDrawn = c.framesDrawn := by
  simp only [updateState]
  split <;> simp_all

theorem updateState_evalInv (c : Component) (p : PartialState) (h : EvalInv c) :
    EvalInv (updateState c p) := by
  unfold EvalInv at *
  rw [updateState_pending, updateState_queued]
  by_cases hp : c.pendingStateUpdate <;> simp_all

theorem RafInv_of_fields {c c' : Component}
    (h1 : c'.outstandingRafs = c.outstandingRafs)
    (h2 : c'.frameHandle = c.frameHandle)
    (h3 : c'.nextRafHandle = c.nextRafHandle) (h : RafInv c) : RafInv c' := by
  unfold RafInv at *
  rw [h1, h2, h3]
  exact h

theorem BindInv_of_fields {c c' : Component}
    (h1 : c'.listenerGroups = c.listenerGroups)
    (h2 : c'.abortedControllers = c.abortedControllers)
    (h3 : c'.videoListenersController = c.videoListenersController)
    (h4 : c'.nextControllerId = c.nextControllerId) (h : BindInv c) : BindInv c' := by
  unfold BindInv activeBindings at *
  rw [h1, h2, h3, h4]
  exact h

theorem EvalInv_of_fields {c c' : Component}
    (h1 : c'.pendingStateUpdate = c.pendingStateUpdate)
    (h2 : c'.queuedEvals = c.queuedEvals) (h : EvalInv c) : EvalInv c' := by
  unfold EvalInv at *
  rw [h1, h2]
  exact h

/-- A list with at most one element, all of whose elements equal `a`,
erases `a` to the empty list. -/
theorem erase_of_le_one {l : List Nat} {a : Nat} (hlen : l.length ≤ 1)
    (hall : ∀ x ∈ l, x = a) : l.erase a = [] := by
  match l with
  | [] => rfl
  | [x] =>
    have hx := hall x (by simp)
    subst hx
    simp
  | x :: y :: t => simp at hlen

/-- Structural characterization of the evaluation microtask body. -/
theorem runEval_eq (c : Component) :
    runEval c =
      if !c.state.connected || !c.state.intersecting then
        match c.context with
        | some _ =>
          { c with
            pendingStateUpdate := false
            queuedEvals := c.queuedEvals - 1
            context := none
            outstandingRafs := c.outstandingRafs.erase c.frameHandle
            loseContextCalls := c.loseContextCalls + 1 }
        | none =>
          { c with
            pendingStateUpdate := false
            queuedEvals := c.queuedEvals - 1
            outstandingRafs := c.outstandingRafs.erase c.frameHandle }
      else
        { c with
          pendingStateUpdate := false
          queuedEvals := c.queuedEvals - 1
          outstandingRafs := c.nextRafHandle :: c.outstandingRafs.erase c.frameHandle
          frameHandle := c.nextRafHandle
          nextRafHandle := c.nextRafHandle + 1 } := by
  simp only [runEval, cancelAnimFrame, reqAnimationFrame]

/-- Structural characterization of the draw-then-maybe-loop tail of the
frame callback. -/
theorem drawAndMaybeLoop_eq (c : Component) (v : Video) (ctx : GpuContext) :
    drawAndMaybeLoop c v ctx =
      if c.state.videoPlaying then
        { c with
          context := some (drawVideo ctx v).1
          framesDrawn := c.framesDrawn + 1
          outstandingRafs := c.nextRafHandle :: c.outstandingRafs
          frameHandle := c.nextRafHandle
          nextRafHandle := c.nextRafHandle + 1 }
      else
        { c with
          context := some (drawVideo ctx v).1
          framesDrawn := c.framesDrawn + 1 } := by
  simp only [drawAndMaybeLoop, reqAnimationFrame]

/-- The fields the frame callback never touches. -/
theorem frame_rest (c : Component) :
    (frame c).pendingStateUpdate = c.pendingStateUpdate ∧
    (frame c).queuedEvals = c.queuedEvals ∧
    (frame c).listenerGroups = c.listenerGroups ∧
    (frame c).abortedControllers = c.abortedControllers ∧
    (frame c).videoListenersController = c.videoListenersController ∧
    (frame c).nextControllerId = c.nextControllerId ∧
    (frame c).state = c.state := by
  unfold frame
  rcases c.video with _ | v
  · simp
  · rcases c.context with _ | ctx
    · dsimp only
      rcases h : (setupGLContext c.driver {} 300 150).2 with e | ctx
      · simp [h]
      · dsimp only
        rw [drawAndMaybeLoop_eq]
        split <;> simp
    · dsimp only
      rw [drawAndMaybeLoop_eq]
      split <;> simp

/-- The frame callback, entered with no outstanding requests, restores the
frame-scheduling invariant. -/
theorem frame_rafInv (c : Component) (h0 : c.outstandingRafs = [])
    (h1 : c.frameHandle < c.nextRafHandle) : RafInv (frame c) := by
  unfold frame
  rcases c.video with _ | v
  · exact ⟨by simp [h0], by simp [h0], h1⟩
  · rcases c.context with _ | ctx
    · dsimp only
      rcases h : (setupGLContext c.driver {} 300 150).2 with e | ctx
      · exact ⟨by simp [h0], by simp [h0], h1⟩
      · dsimp only
        rw [drawAndMaybeLoop_eq]
        split
        · exact ⟨by simp [h0], by simp [h0], by simp⟩
        · exact ⟨by simp [h0], by simp [h0], h1⟩
    · dsimp only
      rw [drawAndMaybeLoop_eq]
      split
      · exact ⟨by simp [h0], by simp [h0], by simp⟩
      · exact ⟨by simp [h0], by simp [h0], h1⟩

/-- The evaluation microtask body preserves the frame-scheduling
invariant. -/
theorem runEval_rafInv (c : Component) (h : RafInv c) : RafInv (runEval c) := by
  obtain ⟨hlen, hall, hlt⟩ := h
  have herase : c.outstandingRafs.erase c.frameHandle = [] := erase_of_le_one hlen hall
  rw [runEval_eq]
  split
  · split <;> exact ⟨by simp [herase], by simp [herase], by simpa using hlt⟩
  · exact ⟨by simp [herase], by simp [herase], by simp⟩

/-- The evaluation microtask body preserves the debounce invariant, given
that a microtask was actually queued. -/
theorem runEval_evalInv (c : Component) (hq : 0 < c.queuedEvals) (h : EvalInv c) :
    EvalInv (runEval c) := by
  unfold EvalInv at *
  have hp : c.pendingStateUpdate = true := by
    by_contra hfalse
    simp only [Bool.not_eq_true] at hfalse
    rw [hfalse] at h
    simp at h
    omega
  rw [runEval_eq]
  rw [hp] at h
  split
  · split <;> simp [h]
  · simp [h]

/-- The evaluation microtask body does not touch the binding fields. -/
theorem runEval_bind (c : Component) :
    (runEval c).listenerGroups = c.listenerGroups ∧
    (runEval c).abortedControllers = c.abortedControllers ∧
    (runEval c).videoListenersController = c.videoListenersController ∧
    (runEval c).nextControllerId = c.nextControllerId := by
  rw [runEval_eq]
  split
  · split <;> simp
  · simp

@[simp] theorem updateState_outstandingRafs (c : Component) (p : PartialState) :
    (updateState c p).outstandingRafs = c.outstandingRafs := (updateState_rest c p).1

@[simp] theorem updateState_frameHandle (c : Component) (p : PartialState) :
    (updateState c p).frameHandle = c.frameHandle := (updateState_rest c p).2.1

@[simp] theorem updateState_nextRafHandle (c : Component) (p : PartialState) :
    (updateState c p).nextRafHandle = c.nextRafHandle := (updateState_rest c p).2.2.1

@[simp] theorem updateState_listenerGroups (c : Component) (p : PartialState) :
    (updateState c p).listenerGroups = c.listenerGroups := (updateState_rest c p).2.2.2.1

@[simp] theorem updateState_abortedControllers (c : Component) (p : PartialState) :
    (updateState c p).abortedControllers = c.abortedControllers :=
  (updateState_rest c p).2.2.2.2.1

@[simp] theorem updateState_videoListenersController (c : Component) (p : PartialState) :
    (updateState c p).videoListenersController = c.videoListenersController :=
  (updateState_rest c p).2.2.2.2.2.1

@[simp] theorem updateState_nextControllerId (c : Component) (p : PartialState) :
    (updateState c p).nextControllerId = c.nextControllerId :=
  (updateState_rest c p).2.2.2.2.2.2.1

@[simp] theorem updateState_context (c : Component) (p : PartialState) :
    (updateState c p).context = c.context := (updateState_rest c p).2.2.2.2.2.2.2.1

@[simp] theorem updateState_video (c : Component) (p : PartialState) :
    (updateState c p).video = c.video := (updateState_rest c p).2.2.2.2.2.2.2.2.1

/-- `#updateState` preserves all maintained invariants. -/
theorem updateState_inv (c : Component) (p : PartialState) (h : Inv c) :
    Inv (updateState c p) :=
  ⟨updateState_evalInv c p h.1,
   RafInv_of_fields (by simp) (by simp) (by simp) h.2.1,
   BindInv_of_fields (by simp) (by simp) (by simp) (by simp) h.2.2⟩

/-- `#videoChange` leaves the frame-scheduling fields untouched. -/
theorem videoChange_raf (c : Component) (child : Option Child) :
    (videoChange c child).outstandingRafs = c.outstandingRafs ∧
    (videoChange c child).frameHandle = c.frameHandle ∧
    (videoChange c child).nextRafHandle = c.nextRafHandle := by
  unfold videoChange
  rcases c.videoListenersController with _ | k <;>
    rcases child with _ | ch <;> dsimp only
  · simp
  · rcases ch with v | _ <;> dsimp only
    · split <;> simp
    · simp
  · simp
  · rcases ch with v | _ <;> dsimp only
    · split <;> simp
    · simp

/-- `#videoChange` preserves the debounce invariant. -/
theorem videoChange_evalInv (c : Component) (child : Option Child) (h : EvalInv c) :
    EvalInv (videoChange c child) := by
  unfold videoChange
  rcases c.videoListenersController with _ | k <;>
    rcases child with _ | ch <;> dsimp only
  · exact updateState_evalInv _ _ (EvalInv_of_fields rfl rfl h)
  · rcases ch with v | _ <;> dsimp only
    · split <;>
        exact EvalInv_of_fields rfl rfl
          (updateState_evalInv _ _ (EvalInv_of_fields rfl rfl h))
    · exact updateState_evalInv _ _ (EvalInv_of_fields rfl rfl h)
  · exact updateState_evalInv _ _ (EvalInv_of_fields rfl rfl h)
  · rcases ch with v | _ <;> dsimp only
    · split <;>
        exact EvalInv_of_fields rfl rfl
          (updateState_evalInv _ _ (EvalInv_of_fields rfl rfl h))
    · exact updateState_evalInv _ _ (EvalInv_of_fields rfl rfl h)

/-- Exact description of how `#videoChange` transforms the binding
fields: the old controller (when present) is aborted first, and a fresh
controller/listener group is registered exactly when the new child is a
video element. -/
theorem videoChange_bind_fields (c : Component) (child : Option Child) :
    (videoChange c child).abortedControllers =
      (match c.videoListenersController with
       | some k => k :: c.abortedControllers
       | none => c.abortedControllers) ∧
    (videoChange c child).listenerGroups =
      (match child with
       | some (Child.videoEl _) => (⟨c.nextControllerId⟩ : Binding) :: c.listenerGroups
       | _ => c.listenerGroups) ∧
    (videoChange c child).videoListenersController =
      (match child with
       | some (Child.videoEl _) => some c.nextControllerId
       | _ => c.videoListenersController) ∧
    (videoChange c child).nextControllerId =
      (match child with
       | some (Child.videoEl _) => c.nextControllerId + 1
       | _ => c.nextControllerId) := by
  unfold videoChange
  rcases hk : c.videoListenersController with _ | k <;>
    rcases child with _ | ch <;> dsimp only
  · simp [hk]
  · rcases ch with v | _ <;> dsimp only
    · split <;> simp [hk]
    · simp [hk]
  · simp [hk]
  · rcases ch with v | _ <;> dsimp only
    · split <;> simp [hk]
    · simp [hk]

/-- `#videoChange` preserves the binding invariant. -/
theorem videoChange_bindInv (c : Component) (child : Option Child) (h : BindInv c) :
    BindInv (videoChange c child) := by
  obtain ⟨hcur, hctrl, habort, hgroups, hlen⟩ := h
  obtain ⟨hab, hgr, hvc, hnc⟩ := videoChange_bind_fields c child
  have habsub : c.abortedControllers ⊆ (videoChange c child).abortedControllers := by
    rw [hab]
    rcases c.videoListenersController with _ | k
    · exact fun a ha => ha
    · exact fun a ha => List.mem_cons_of_mem _ ha
  have haborted : ∀ a ∈ (videoChange c child).abortedControllers, a < c.nextControllerId := by
    rw [hab]
    rcases hk : c.videoListenersController with _ | k
    · exact habort
    · intro a ha
      rcases List.mem_cons.mp ha with rfl | ha
      · exact hctrl a hk
      · exact habort a ha
  rcases child with _ | ch
  · -- absent child: groups, controller and allocator unchanged
    dsimp only at hgr hvc hnc
    refine ⟨?_, ?_, ?_, ?_, ?_⟩
    · intro b hb hnab
      rw [hvc]
      exact hcur b (by rwa [hgr] at hb) (fun hmem => hnab (habsub hmem))
    · intro k hk
      rw [hnc]
      exact hctrl k (by rwa [hvc] at hk)
    · intro a ha
      rw [hnc]
      exact haborted a ha
    · intro b hb
      rw [hnc]
      exact hgroups b (by rwa [hgr] at hb)
    · unfold activeBindings
      rw [hgr]
      refine le_trans ((List.monotone_filter_right _ ?_).length_le) hlen
      intro b hpb
      simp only [decide_eq_true_eq] at *
      exact fun hmem => hpb (habsub hmem)
  · rcases ch with v | _
    · -- new video child: fresh controller `c.nextControllerId`
      dsimp only at hgr hvc hnc
      have hold : ∀ b ∈ c.listenerGroups,
          b.controllerId ∈ (videoChange c (some (Child.videoEl v))).abortedControllers := by
        intro b hb
        by_cases hmem : b.controllerId ∈ c.abortedControllers
        · exact habsub hmem
        · have hc := hcur b hb hmem
          rw [hab, hc]
          exact List.mem_cons_self _ _
      refine ⟨?_, ?_, ?_, ?_, ?_⟩
      · intro b hb hnab
        rw [hgr] at hb
        rw [hvc]
        rcases List.mem_cons.mp hb with rfl | hb
        · rfl
        · exact absurd (hold b hb) hnab
      · intro k hk
        rw [hvc] at hk
        rw [hnc]
        cases hk
        exact Nat.lt_succ_self _
      · intro a ha
        rw [hnc]
        exact lt_trans (haborted a ha) (Nat.lt_succ_self _)
      · intro b hb
        rw [hgr] at hb
        rw [hnc]
        rcases List.mem_cons.mp hb with rfl | hb
        · exact Nat.lt_succ_self _
        · exact lt_trans (hgroups b hb) (Nat.lt_succ_self _)
      · unfold activeBindings
        rw [hgr]
        have hrest : c.listenerGroups.filter
            (fun b => decide (b.controllerId ∉
              (videoChange c (some (Child.videoEl v))).abortedControllers)) = [] := by
          rw [List.filter_eq_nil_iff]
          intro b hb
          simp only [decide_eq_true_eq, Decidable.not_not]
          exact hold b hb
        rw [List.filter_cons, hrest]
        split <;> simp
    · -- non-video child: same shape as the absent-child case
      dsimp only at hgr hvc hnc
      refine ⟨?_, ?_, ?_, ?_, ?_⟩
      · intro b hb hnab
        rw [hvc]
        exact hcur b (by rwa [hgr] at hb) (fun hmem => hnab (habsub hmem))
      · intro k hk
        rw [hnc]
        exact hctrl k (by rwa [hvc] at hk)
      · intro a ha
        rw [hnc]
        exact haborted a ha
      · intro b hb
        rw [hnc]
        exact hgroups b (by rwa [hgr] at hb)
      · unfold activeBindings
        rw [hgr]
        refine le_trans ((List.monotone_filter_right _ ?_).length_le) hlen
        intro b hpb
        simp only [decide_eq_true_eq] at *
        exact fun hmem => hpb (habsub hmem)

/-- `#videoChange` preserves all maintained invariants. -/
theorem videoChange_inv (c : Component) (child : Option Child) (h : Inv c) :
    Inv (videoChange c child) :=
  ⟨videoChange_evalInv c child h.1,
   RafInv_of_fields (videoChange_raf c child).1 (videoChange_raf c child).2.1
     (videoChange_raf c child).2.2 h.2.1,
   videoChange_bindInv c child h.2.2⟩

/-- A dispatched video event preserves all maintained invariants. -/
theorem fireVideoEvent_inv (c : Component) (b : Binding) (v : Video) (h : Inv c) :
    Inv (fireVideoEvent c b v) := by
  unfold fireVideoEvent
  split
  · exact updateState_inv _ _ h
  · exact h

/-- `attributeChangedCallback` touches only the GL context. -/
theorem attributeChangedCallback_rest (c : Component) (name : String)
    (newValue : Option String) :
    (attributeChangedCallback c name newValue).pendingStateUpdate = c.pendingStateUpdate ∧
    (attributeChangedCallback c name newValue).queuedEvals = c.queuedEvals ∧
    (attributeChangedCallback c name newValue).outstandingRafs = c.outstandingRafs ∧
    (attributeChangedCallback c name newValue).frameHandle = c.frameHandle ∧
    (attributeChangedCallback c name newValue).nextRafHandle = c.nextRafHandle ∧
    (attributeChangedCallback c name newValue).listenerGroups = c.listenerGroups ∧
    (attributeChangedCallback c name newValue).abortedControllers = c.abortedControllers ∧
    (attributeChangedCallback c name newValue).videoListenersController =
      c.videoListenersController ∧
    (attributeChangedCallback c name newValue).nextControllerId = c.nextControllerId := by
  unfold attributeChangedCallback
  split
  · rcases c.context with _ | ctx <;> simp
  · simp

/-- An invariant-preservation helper for any function that leaves all
scheduling and binding fields untouched. -/
theorem Inv_of_fields {c c' : Component}
    (h1 : c'.pendingStateUpdate = c.pendingStateUpdate)
    (h2 : c'.queuedEvals = c.queuedEvals)
    (h3 : c'.outstandingRafs = c.outstandingRafs)
    (h4 : c'.frameHandle = c.frameHandle)
    (h5 : c'.nextRafHandle = c.nextRafHandle)
    (h6 : c'.listenerGroups = c.listenerGroups)
    (h7 : c'.abortedControllers = c.abortedControllers)
    (h8 : c'.videoListenersController = c.videoListenersController)
    (h9 : c'.nextControllerId = c.nextControllerId)
    (h : Inv c) : Inv c' :=
  ⟨EvalInv_of_fields h1 h2 h.1, RafInv_of_fields h3 h4 h5 h.2.1,
   BindInv_of_fields h6 h7 h8 h9 h.2.2⟩

/-- Every browser-invocable step preserves all maintained invariants. -/
theorem step_inv {c c' : Component} (h : Step c c') (hc : Inv c) : Inv c' := by
  cases h with
  | intersection b => exact updateState_inv _ _ hc
  | connect => exact updateState_inv _ _ hc
  | disconnect => exact updateState_inv _ _ hc
  | childChange newChild => exact videoChange_inv _ _ hc
  | videoEvent b v => exact fireVideoEvent_inv _ _ _ hc
  | attrChange present =>
    unfold setPremultAttrStep
    obtain ⟨h1, h2, h3, h4, h5, h6, h7, h8, h9⟩ :=
      attributeChangedCallback_rest
        { c with premultAttr := present } "premultipliedalpha"
        (if present then some "" else none)
    exact Inv_of_fields h1 h2 h3 h4 h5 h6 h7 h8 h9 hc
  | evalMicrotask hq =>
    refine ⟨runEval_evalInv c hq hc.1, runEval_rafInv c hc.2.1, ?_⟩
    obtain ⟨h6, h7, h8, h9⟩ := runEval_bind c
    exact BindInv_of_fields h6 h7 h8 h9 hc.2.2
  | rafFire hraf hmem =>
    obtain ⟨r1, r2, r3, r4, r5, r6, r7⟩ := frame_rest (cancelAnimFrame c hraf)
    refine ⟨EvalInv_of_fields r1 r2 hc.1, ?_, BindInv_of_fields r3 r4 r5 r6 hc.2.2⟩
    have hh : hraf = c.frameHandle := hc.2.1.2.1 hraf hmem
    have h0 : (cancelAnimFrame c hraf).outstandingRafs = [] := by
      show c.outstandingRafs.erase hraf = []
      rw [hh]
      exact erase_of_le_one hc.2.1.1 hc.2.1.2.1
    exact frame_rafInv _ h0 hc.2.1.2.2
  | videoMutate v hv =>
    exact Inv_of_fields rfl rfl rfl rfl rfl rfl rfl rfl rfl hc

/-- The constructor's result satisfies all maintained invariants. -/
theorem newComponent_inv (drv : GLDriver) (child : Option Child) :
    Inv (newComponent drv child) := by
  apply videoChange_inv
  refine ⟨?_, ⟨?_, ?_, ?_⟩, ?_, ?_, ?_, ?_, ?_⟩ <;>
    simp [EvalInv, activeBindings]

/-- Every reachable component state satisfies all maintained invariants. -/
theorem reachable_inv (drv : GLDriver) (child : Option Child) (c : Component)
    (h : Reachable drv child c) : Inv c := by
  unfold Reachable at h
  induction h with
  | refl => exact newComponent_inv drv child
  | tail _ hstep ih => exact step_inv hstep ih

/-! ## Concrete fixtures for witnesses -/

/-- A driver on which every GL operation succeeds. -/
def okDriver : GLDriver :=
  { contextOk := true
    createShaderOk := true
    compileOk := fun _ _ => true
    shaderInfoLog := fun _ _ => none
    createProgramOk := true
    linkOk := true
    programInfoLog := none }

/-- A driver on which `canvas.getContext` returns null. -/
def noContextDriver : GLDriver :=
  { okDriver with contextOk := false }

/-- A driver on which fragment shaders fail to compile with a diagnostic. -/
def fragFailDriver : GLDriver :=
  { okDriver with
    compileOk := fun _ ty => match ty with
      | ShaderType.fragment => false
      | ShaderType.vertex => true
    shaderInfoLog := fun _ _ => some "ERROR: 0:1: compile failed" }

/-- A driver on which vertex shaders fail to compile with a diagnostic. -/
def vertFailDriver : GLDriver :=
  { okDriver with
    compileOk := fun _ ty => match ty with
      | ShaderType.fragment => true
      | ShaderType.vertex => false
    shaderInfoLog := fun _ _ => some "ERROR: 0:2: bad vertex" }

/-- A driver on which program linking fails with a diagnostic. -/
def linkFailDriver : GLDriver :=
  { okDriver with
    linkOk := false
    programInfoLog := some "link failed" }

/-- A concrete 640×725 playing video element. -/
def v0 : Video :=
  { videoWidth := 640
    videoHeight := 725
    paused := false
    ended := false
    readyState := 4
    autoplay := false }

/-- The GL resource state after a successful `setupGLContext` on a fresh
context. -/
def setupOkRes : GLRes :=
  { nextShaderId := 2
    liveShaders := [1, 0]
    shaderSources := [(1, vertexShaderSource, ShaderType.vertex),
                      (0, fragmentShaderSource, ShaderType.fragment)]
    nextProgramId := 1
    livePrograms := [0] }

/-- The context produced by a successful `setupGLContext` on a fresh 300×150
canvas with `okDriver`. -/
def setupOkCtx : GpuContext :=
  { res := setupOkRes
    canvasWidth := 300
    canvasHeight := 150
    viewportW := 300
    viewportH := 150
    program := 0
    positions := unitQuad
    matrixUniform := [2, 0, 0, 0, -2, 0, -1, 1, 1]
    premultLocSet := true
    premultUniform := 0
    texture := 0
    wrapClampToEdge := true
    filterNearest := true }

/-- A quiescent component: no pending evaluation, nothing scheduled, no
binding, no context. -/
def cBase : Component :=
  { driver := okDriver
    state := { videoPlaying := false, intersecting := false, connected := false }
    pendingStateUpdate := false
    queuedEvals := 0
    context := none
    video := none
    premultAttr := false
    frameHandle := 0
    nextRafHandle := 1
    outstandingRafs := []
    nextControllerId := 0
    videoListenersController := none
    abortedControllers := []
    listenerGroups := []
    loseContextCalls := 0
    setupAttempts := 0
    warnings := 0
    framesDrawn := 0
    playTasksQueued := 0 }

/-- A connected and intersecting component with a pending evaluation. -/
def cActive : Component :=
  { cBase with
    state := { videoPlaying := false, intersecting := true, connected := true }
    pendingStateUpdate := true
    queuedEvals := 1 }

/-- A disconnected component holding a context, with a pending evaluation. -/
def cIdle : Component :=
  { cBase with
    state := { videoPlaying := true, intersecting := true, connected := false }
    pendingStateUpdate := true
    queuedEvals := 1
    context := some setupOkCtx }

/-! ## Claims -/

/-- The evaluation-relevant observables of a component: outstanding frame
requests, the stored handle, the context, and the teardown counter. -/
def evalObs (c : Component) : List Nat × Nat × Option GpuContext × Nat :=
  (c.outstandingRafs, c.frameHandle, c.context, c.loseContextCalls)

/-- C1: when the debounced evaluation runs with `connected ∧ intersecting`
(Active) it requests a frame and leaves the context alone; otherwise (Idle)
it loses and clears any existing context and requests no frame; the
Active/Idle decision is independent of `videoPlaying`. -/
theorem C1_evaluate_active_iff (c : Component) :
    ((c.state.connected ∧ c.state.intersecting) →
      (runEval c).outstandingRafs =
        c.nextRafHandle :: c.outstandingRafs.erase c.frameHandle ∧
      (runEval c).frameHandle = c.nextRafHandle ∧
      (runEval c).context = c.context ∧
      (runEval c).loseContextCalls = c.loseContextCalls) ∧
    (¬(c.state.connected ∧ c.state.intersecting) →
      (runEval c).outstandingRafs = c.outstandingRafs.erase c.frameHandle ∧
      (runEval c).context = none ∧
      (runEval c).loseContextCalls =
        c.loseContextCalls + (if c.context.isSome then 1 else 0)) ∧
    (∀ b : Bool,
      evalObs (runEval { c with state := { c.state with videoPlaying := b } }) =
        evalObs (runEval c)) := by
  refine ⟨?_, ?_, ?_⟩
  · rintro ⟨hcon, hint⟩
    rw [runEval_eq]
    simp [hcon, hint]
  · intro hni
    have hd : (!c.state.connected || !c.state.intersecting) = true := by
      rcases Bool.eq_false_or_eq_true c.state.connected with hc | hc
      · rcases Bool.eq_false_or_eq_true c.state.intersecting with hi | hi
        · exact absurd ⟨hc, hi⟩ hni
        · simp [hi]
      · simp [hc]
    rw [runEval_eq, if_pos hd]
    rcases hctx : c.context with _ | ctx <;> simp [hctx]
  · intro b
    rcases hctx : c.context with _ | ctx <;>
      rcases Bool.eq_false_or_eq_true c.state.connected with hc | hc <;>
        rcases Bool.eq_false_or_eq_true c.state.intersecting with hi | hi <;>
          simp [runEval_eq, evalObs, hc, hi, hctx]

/-- Witness for C1 at a concrete Active state and a concrete Idle state. -/
theorem C1_evaluate_active_iff_witness :
    (runEval cActive).outstandingRafs = [1] ∧
    (runEval cIdle).context = none ∧
    (runEval cIdle).loseContextCalls = 1 := by
  have ha := (C1_evaluate_active_iff cActive).1 ⟨rfl, rfl⟩
  have hi := (C1_evaluate_active_iff cIdle).2.1
    (by intro h; exact absurd h.1 (by decide))
  refine ⟨?_, hi.2.1, ?_⟩
  · rw [ha.1]
    rfl
  · rw [hi.2.2]
    rfl

/-- A further `#updateState` call while an evaluation is already pending
only merges the partial state. -/
theorem updateState_of_pending (c : Component) (p : PartialState)
    (h : c.pendingStateUpdate = true) :
    updateState c p = { c with state := mergeState c.state p } := by
  simp only [updateState]
  rw [if_pos h]

/-- Folding `#updateState` over a burst of partials while the pending flag
is set merges all of them and changes nothing else. -/
theorem foldl_updateState_pending (ps : List PartialState) (c : Component)
    (h : c.pendingStateUpdate = true) :
    ps.foldl updateState c = { c with state := ps.foldl mergeState c.state } := by
  induction ps generalizing c with
  | nil => rfl
  | cons p ps ih =>
    rw [List.foldl_cons, List.foldl_cons, updateState_of_pending c p h]
    exact ih { c with state := mergeState c.state p } h

/-- C2: (a) once the pending flag is set, a further synchronous `update`
call only merges its fields; (b) any nonempty burst of synchronous `update`
calls on a quiescent component schedules exactly one evaluation, which reads
the fully merged state; (c) no reachable component ever has more than one
pending evaluation. -/
theorem C2_update_debounce :
    (∀ (c : Component) (p : PartialState), c.pendingStateUpdate = true →
      updateState c p = { c with state := mergeState c.state p }) ∧
    (∀ (c : Component) (ps : List PartialState), c.pendingStateUpdate = false →
      c.queuedEvals = 0 → ps ≠ [] →
      (ps.foldl updateState c).queuedEvals = 1 ∧
      (ps.foldl updateState c).pendingStateUpdate = true ∧
      (ps.foldl updateState c).state = ps.foldl mergeState c.state) ∧
    (∀ (drv : GLDriver) (child : Option Child) (c : Component),
      Reachable drv child c → c.queuedEvals ≤ 1) := by
  refine ⟨updateState_of_pending, ?_, ?_⟩
  · intro c ps hpend hq hne
    rcases ps with _ | ⟨p, ps⟩
    · exact absurd rfl hne
    · have h1 : updateState c p =
          { c with
            state := mergeState c.state p
            pendingStateUpdate := true
            queuedEvals := c.queuedEvals + 1 } := by
        simp only [updateState]
        rw [if_neg (by simp [hpend])]
      rw [List.foldl_cons, h1,
        foldl_updateState_pending ps _ rfl]
      refine ⟨by simp [hq], rfl, by simp⟩
  · intro drv child c hr
    have h1 := (reachable_inv drv child c hr).1
    unfold EvalInv at h1
    rw [h1]
    split <;> simp

/-- Witness for C2: a merge-only call on a pending component, a two-update
burst from quiescence queuing exactly one evaluation with the merged state,
and the bound on a concrete reachable state. -/
theorem C2_update_debounce_witness :
    updateState cActive { videoPlaying := some true } =
      { cActive with state := mergeState cActive.state { videoPlaying := some true } } ∧
    (([{ intersecting := some true }, { connected := some true }] :
        List PartialState).foldl updateState cBase).queuedEvals = 1 ∧
    (([{ intersecting := some true }, { connected := some true }] :
        List PartialState).foldl updateState cBase).state =
      { videoPlaying := false, intersecting := true, connected := true } ∧
    (newComponent okDriver none).queuedEvals ≤ 1 := by
  have hb := C2_update_debounce.2.1 cBase
    [{ intersecting := some true }, { connected := some true }] rfl rfl (by simp)
  exact ⟨C2_update_debounce.1 cActive { videoPlaying := some true } rfl,
    hb.1, by rw [hb.2.2]; rfl,
    C2_update_debounce.2.2 okDriver none _ Relation.ReflTransGen.refl⟩

/-- C5: at most one outstanding frame request exists per component at any
time; the debounced evaluation always removes the stored handle from the
outstanding set before issuing at most one new request; the frame callback
issues at most one request (storing it as its own new handle). -/
theorem C5_at_most_one_frame_request :
    (∀ (drv : GLDriver) (child : Option Child) (c : Component),
      Reachable drv child c → c.outstandingRafs.length ≤ 1) ∧
    (∀ c : Component, ∃ issued : List Nat, issued.length ≤ 1 ∧
      (runEval c).outstandingRafs =
        issued ++ c.outstandingRafs.erase c.frameHandle ∧
      ∀ h ∈ issued, h = (runEval c).frameHandle) ∧
    (∀ c : Component, ∃ issued : List Nat, issued.length ≤ 1 ∧
      (frame c).outstandingRafs = issued ++ c.outstandingRafs ∧
      ∀ h ∈ issued, h = (frame c).frameHandle) := by
  refine ⟨?_, ?_, ?_⟩
  · intro drv child c hr
    exact (reachable_inv drv child c hr).2.1.1
  · intro c
    rw [runEval_eq]
    split
    · split
      · exact ⟨[], by simp⟩
      · exact ⟨[], by simp⟩
    · exact ⟨[c.nextRafHandle], by simp⟩
  · intro c
    unfold frame
    rcases c.video with _ | v
    · exact ⟨[], by simp⟩
    · rcases c.context with _ | ctx
      · dsimp only
        rcases h : (setupGLContext c.driver {} 300 150).2 with e | ctx
        · exact ⟨[], by simp⟩
        · dsimp only
          rw [drawAndMaybeLoop_eq]
          split
          · exact ⟨[c.nextRafHandle], by simp⟩
          · exact ⟨[], by simp⟩
      · dsimp only
        rw [drawAndMaybeLoop_eq]
        split
        · exact ⟨[c.nextRafHandle], by simp⟩
        · exact ⟨[], by simp⟩

/-- Witness for C5 at a concrete reachable state. -/
theorem C5_at_most_one_frame_request_witness :
    (newComponent okDriver (some (Child.videoEl v0))).outstandingRafs.length ≤ 1 :=
  C5_at_most_one_frame_request.1 okDriver (some (Child.videoEl v0)) _
    Relation.ReflTransGen.refl

/-- A component holding an active binding (controller 0) to `v0`. -/
def cBound : Component :=
  { cBase with
    video := some v0
    nextControllerId := 1
    videoListenersController := some 0
    listenerGroups := [⟨0⟩] }

/-- C6: for every child change, the previous binding's controller is
aborted; at most one listener group is ever active on a reachable
component; after rebinding, the stale binding's listener fires no further
`videoPlaying` updates (dispatch to it leaves the component unchanged). -/
theorem C6_rebind_revokes_previous :
    (∀ (c : Component) (child : Option Child) (k : Nat),
      c.videoListenersController = some k →
      k ∈ (videoChange c child).abortedControllers) ∧
    (∀ (drv : GLDriver) (child : Option Child) (c : Component),
      Reachable drv child c → (activeBindings c).length ≤ 1) ∧
    (∀ (c : Component) (child : Option Child) (b : Binding) (v : Video),
      c.videoListenersController = some b.controllerId →
      fireVideoEvent (videoChange c child) b v = videoChange c child) := by
  have habort : ∀ (c : Component) (child : Option Child) (k : Nat),
      c.videoListenersController = some k →
      k ∈ (videoChange c child).abortedControllers := by
    intro c child k hk
    rw [(videoChange_bind_fields c child).1, hk]
    exact List.mem_cons_self _ _
  refine ⟨habort, ?_, ?_⟩
  · intro drv child c hr
    exact (reachable_inv drv child c hr).2.2.2.2.2.2
  · intro c child b v hb
    unfold fireVideoEvent
    rw [if_neg]
    rintro ⟨_, hno⟩
    exact hno (habort c child b.controllerId hb)

/-- Witness for C6: rebinding `cBound` to a fresh video aborts controller 0,
the initial component has at most one active binding, and an event fired at
the stale binding is a no-op. -/
theorem C6_rebind_revokes_previous_witness :
    0 ∈ (videoChange cBound (some (Child.videoEl v0))).abortedControllers ∧
    (activeBindings (newComponent okDriver (some (Child.videoEl v0)))).length ≤ 1 ∧
    fireVideoEvent (videoChange cBound (some (Child.videoEl v0))) ⟨0⟩ v0 =
      videoChange cBound (some (Child.videoEl v0)) :=
  ⟨C6_rebind_revokes_previous.1 cBound (some (Child.videoEl v0)) 0 rfl,
   C6_rebind_revokes_previous.2.1 okDriver (some (Child.videoEl v0)) _
     Relation.ReflTransGen.refl,
   C6_rebind_revokes_previous.2.2 cBound (some (Child.videoEl v0)) ⟨0⟩ v0 rfl⟩

/-- On a successful `setupGLContext`, the produced context has the uniform
location recorded, the premultiplied-alpha uniform initialised to 0, and
canvas/viewport at the canvas's creation size. -/
theorem setupGLContext_ok_fields (drv : GLDriver) (st : GLRes) (w h : Nat)
    (ctx : GpuContext) (hok : (setupGLContext drv st w h).2 = .ok ctx) :
    ctx.premultLocSet = true ∧ ctx.premultUniform = 0 ∧
    ctx.canvasWidth = w ∧ ctx.canvasHeight = h ∧
    ctx.viewportW = w ∧ ctx.viewportH = h := by
  unfold setupGLContext at hok
  split at hok
  · simp at hok
  · split at hok
    · simp at hok
    · split at hok
      · simp at hok
      · split at hok
        · simp at hok
        · simp [setPremultipliedAlpha] at hok
          subst hok
          exact ⟨rfl, rfl, rfl, rfl, rfl, rfl⟩

/-- C3: the frame callback is a no-op when no video is bound; with a video
but no context it attempts creation, aborting (no draw, no reschedule) on
failure and applying the current premultiplied-alpha attribute on success;
with a context in hand it draws exactly one frame and requests another
frame callback if and only if `videoPlaying` is true. -/
theorem C3_frame_callback (c : Component) :
    (c.video = none → frame c = c) ∧
    (∀ v e, c.video = some v → c.context = none →
      (setupGLContext c.driver {} 300 150).2 = .error e →
      frame c = { c with setupAttempts := c.setupAttempts + 1,
                         warnings := c.warnings + 1 }) ∧
    (∀ v ctx, c.video = some v → c.context = some ctx →
      (frame c).framesDrawn = c.framesDrawn + 1 ∧
      (frame c).context = some (drawVideo ctx v).1 ∧
      (frame c).outstandingRafs =
        (if c.state.videoPlaying then [c.nextRafHandle] else []) ++
          c.outstandingRafs) ∧
    (∀ v ctx, c.video = some v → c.context = none →
      (setupGLContext c.driver {} 300 150).2 = .ok ctx →
      (frame c).framesDrawn = c.framesDrawn + 1 ∧
      (frame c).context =
        some (drawVideo (setPremultipliedAlpha ctx c.premultAttr) v).1 ∧
      (setPremultipliedAlpha ctx c.premultAttr).premultUniform =
        (if c.premultAttr then 1 else 0) ∧
      (frame c).outstandingRafs =
        (if c.state.videoPlaying then [c.nextRafHandle] else []) ++
          c.outstandingRafs) := by
  refine ⟨?_, ?_, ?_, ?_⟩
  · intro hv
    unfold frame
    rw [hv]
  · intro v e hv hctx hfail
    unfold frame
    rw [hv, hctx]
    dsimp only
    rw [hfail]
  · intro v ctx hv hctx
    unfold frame
    rw [hv, hctx]
    dsimp only
    rw [drawAndMaybeLoop_eq]
    split <;> simp_all
  · intro v ctx hv hctx hok
    have hloc := (setupGLContext_ok_fields c.driver {} 300 150 ctx hok).1
    have hpremult : (setPremultipliedAlpha ctx c.premultAttr).premultUniform =
        (if c.premultAttr then 1 else 0) := by
      unfold setPremultipliedAlpha
      rw [if_pos hloc]
    unfold frame
    rw [hv, hctx]
    dsimp only
    rw [hok]
    dsimp only
    rw [drawAndMaybeLoop_eq]
    refine ?_
    split <;> simp_all

/-- A playing, visible, connected component bound to `v0`, on a platform
where context creation fails. -/
def cVidBad : Component :=
  { cBase with
    driver := noContextDriver
    state := { videoPlaying := true, intersecting := true, connected := true }
    video := some v0 }

/-- A paused-video component that already holds a context. -/
def cVidCtx : Component :=
  { cBase with video := some v0, context := some setupOkCtx }

/-- A paused-video component with no context, on a fully working platform. -/
def cVidOk : Component :=
  { cBase with video := some v0 }

/-- Witness for C3: the four cases of the frame callback at concrete
components. -/
theorem C3_frame_callback_witness :
    frame cBase = cBase ∧
    frame cVidBad = { cVidBad with setupAttempts := 1, warnings := 1 } ∧
    (frame cVidCtx).framesDrawn = 1 ∧
    (frame cVidOk).context =
      some (drawVideo (setPremultipliedAlpha setupOkCtx false) v0).1 := by
  refine ⟨(C3_frame_callback cBase).1 rfl, ?_, ?_, ?_⟩
  · have h := (C3_frame_callback cVidBad).2.1 v0 "Couldn't create GL context"
      rfl rfl rfl
    rw [h]
    rfl
  · have h := (C3_frame_callback cVidCtx).2.2.1 v0 setupOkCtx rfl rfl
    rw [h.1]
    rfl
  · have h := (C3_frame_callback cVidOk).2.2.2 v0 setupOkCtx rfl rfl rfl
    rw [h.2.1]
    rfl

/-- C10: when lazy context creation inside the frame callback fails, the
callback returns without drawing and without scheduling another frame
callback — even when `videoPlaying` is true — recording exactly one
creation attempt and one warning, and leaving the context absent. -/
theorem C10_creation_failure_aborts (c : Component) (v : Video) (e : String)
    (hv : c.video = some v) (hctx : c.context = none)
    (hfail : (setupGLContext c.driver {} 300 150).2 = .error e) :
    (frame c).framesDrawn = c.framesDrawn ∧
    (frame c).outstandingRafs = c.outstandingRafs ∧
    (frame c).context = none ∧
    (frame c).setupAttempts = c.setupAttempts + 1 ∧
    (frame c).warnings = c.warnings + 1 := by
  unfold frame
  rw [hv, hctx]
  dsimp only
  rw [hfail]
  dsimp only
  exact ⟨rfl, rfl, rfl, rfl, rfl⟩

/-- Witness for C10 at a concrete component with a playing video and a
failing platform. -/
theorem C10_creation_failure_aborts_witness :
    (frame cVidBad).outstandingRafs = [] ∧
    (frame cVidBad).context = none ∧
    (frame cVidBad).setupAttempts = 1 := by
  have h := C10_creation_failure_aborts cVidBad v0 "Couldn't create GL context"
    rfl rfl rfl
  exact ⟨h.2.1, h.2.2.1, h.2.2.2.1⟩

/-- A stacked frame whose color (top) half is the constant color
(0.2, 0.2, 0.2) and whose alpha (bottom) half has red channel 0.5. -/
def stackedSample05 : Vec2 → Vec4 := fun p =>
  if p.y < 1 / 2 then ⟨1 / 5, 1 / 5, 1 / 5, 1⟩ else ⟨1 / 2, 1 / 2, 1 / 2, 1⟩

/-- C4: the fragment stage samples color at `(x, y·0.5)` and alpha (red
channel) at `(x, 0.5 + y·0.5)` and outputs
`RGB = color.rgb · (alpha·(1−f) + f)`, `A = alpha`; with alpha sample 0.5
and color (0.2, 0.2, 0.2), flag 1 leaves RGB at (0.2, 0.2, 0.2) and flag 0
halves it to (0.1, 0.1, 0.1). -/
theorem C4_fragment_stage :
    (∀ (sample : Vec2 → Vec4) (f x y : Rat),
      fragmentMain sample f ⟨x, y⟩ =
        { r := (sample ⟨x, y * (1 / 2)⟩).r *
            ((sample ⟨x, 1 / 2 + y * (1 / 2)⟩).r * (1 - f) + f)
          g := (sample ⟨x, y * (1 / 2)⟩).g *
            ((sample ⟨x, 1 / 2 + y * (1 / 2)⟩).r * (1 - f) + f)
          b := (sample ⟨x, y * (1 / 2)⟩).b *
            ((sample ⟨x, 1 / 2 + y * (1 / 2)⟩).r * (1 - f) + f)
          a := (sample ⟨x, 1 / 2 + y * (1 / 2)⟩).r }) ∧
    fragmentMain stackedSample05 1 ⟨0, 0⟩ =
      { r := 1 / 5, g := 1 / 5, b := 1 / 5, a := 1 / 2 } ∧
    fragmentMain stackedSample05 0 ⟨0, 0⟩ =
      { r := 1 / 10, g := 1 / 10, b := 1 / 10, a := 1 / 2 } := by
  refine ⟨?_, ?_, ?_⟩
  · intro sample f x y
    unfold fragmentMain glslMix
    dsimp only
    simp only [Vec4.mk.injEq]
    refine ⟨by ring, by ring, by ring, trivial⟩
  · unfold fragmentMain stackedSample05 glslMix
    norm_num [Vec4.mk.injEq]
  · unfold fragmentMain stackedSample05 glslMix
    norm_num [Vec4.mk.injEq]

/-- C7: compile and link failures surface the driver's diagnostic text as
the thrown error, the failed shader or program object is deleted before the
error propagates, and `setupGLContext` propagates each such failure so the
caller receives no context. -/
theorem C7_setup_failure_cleanup :
    (∀ (drv : GLDriver) (st : GLRes) (src : String) (ty : ShaderType),
      drv.createShaderOk = true → drv.compileOk src ty = false →
      (loadShader drv st src ty).2 =
        .error (jsStringOr (drv.shaderInfoLog src ty) "unknown error") ∧
      (loadShader drv st src ty).1.liveShaders = st.liveShaders) ∧
    (∀ (drv : GLDriver) (st : GLRes) (shaders : List Nat),
      drv.createProgramOk = true → drv.linkOk = false →
      (createProgram drv st shaders).2 =
        .error (jsStringOr drv.programInfoLog "unknown error") ∧
      (createProgram drv st shaders).1.livePrograms = st.livePrograms) ∧
    (∀ (drv : GLDriver) (st : GLRes) (w h : Nat),
      drv.contextOk = true → drv.createShaderOk = true →
      drv.compileOk fragmentShaderSource ShaderType.fragment = false →
      (setupGLContext drv st w h).2 =
        .error (jsStringOr
          (drv.shaderInfoLog fragmentShaderSource ShaderType.fragment)
          "unknown error")) ∧
    (∀ (drv : GLDriver) (st : GLRes) (w h : Nat),
      drv.contextOk = true → drv.createShaderOk = true →
      drv.compileOk fragmentShaderSource ShaderType.fragment = true →
      drv.compileOk vertexShaderSource ShaderType.vertex = false →
      (setupGLContext drv st w h).2 =
        .error (jsStringOr
          (drv.shaderInfoLog vertexShaderSource ShaderType.vertex)
          "unknown error")) ∧
    (∀ (drv : GLDriver) (st : GLRes) (w h : Nat),
      drv.contextOk = true → drv.createShaderOk = true →
      (∀ src ty, drv.compileOk src ty = true) →
      drv.createProgramOk = true → drv.linkOk = false →
      (setupGLContext drv st w h).2 =
        .error (jsStringOr drv.programInfoLog "unknown error")) := by
  refine ⟨?_, ?_, ?_, ?_, ?_⟩
  · intro drv st src ty h1 h2
    constructor <;> simp [loadShader, h1, h2]
  · intro drv st shaders h1 h2
    constructor <;> simp [createProgram, h1, h2]
  · intro drv st w h h1 h2 h3
    simp [setupGLContext, loadShader, h1, h2, h3]
  · intro drv st w h h1 h2 h3 h4
    simp [setupGLContext, loadShader, h1, h2, h3, h4]
  · intro drv st w h h1 h2 h3 h4 h5
    simp [setupGLContext, loadShader, createProgram, h1, h2, h3, h4, h5]

/-- Witness for C7 on concrete failing drivers. -/
theorem C7_setup_failure_cleanup_witness :
    (loadShader fragFailDriver {} fragmentShaderSource ShaderType.fragment).2 =
      .error "ERROR: 0:1: compile failed" ∧
    (loadShader fragFailDriver {} fragmentShaderSource
      ShaderType.fragment).1.liveShaders = [] ∧
    (createProgram linkFailDriver {} [0, 1]).2 = .error "link failed" ∧
    (setupGLContext fragFailDriver {} 300 150).2 =
      .error "ERROR: 0:1: compile failed" ∧
    (setupGLContext vertFailDriver {} 300 150).2 =
      .error "ERROR: 0:2: bad vertex" ∧
    (setupGLContext linkFailDriver {} 300 150).2 = .error "link failed" := by
  have h1 := C7_setup_failure_cleanup.1 fragFailDriver {} fragmentShaderSource
    ShaderType.fragment rfl rfl
  have h2 := C7_setup_failure_cleanup.2.1 linkFailDriver {} [0, 1] rfl rfl
  have h3 := C7_setup_failure_cleanup.2.2.1 fragFailDriver {} 300 150 rfl rfl rfl
  have h4 := C7_setup_failure_cleanup.2.2.2.1 vertFailDriver {} 300 150
    rfl rfl rfl rfl
  have h5 := C7_setup_failure_cleanup.2.2.2.2 linkFailDriver {} 300 150
    rfl rfl (fun _ _ => rfl) rfl rfl
  refine ⟨?_, h1.2, ?_, ?_, ?_, ?_⟩
  · rw [h1.1]
    rfl
  · rw [h2.1]
    rfl
  · rw [h3]
    rfl
  · rw [h4]
    rfl
  · rw [h5]
    rfl

/-- C8: after every `drawVideo` the surface and the viewport measure
`(videoWidth, ⌊videoHeight/2⌋)`; the surface is reallocated exactly when
those dimensions differ from the current ones; the frame is uploaded into
the one reused texture (none created) and a single 6-vertex triangle draw
is issued. -/
theorem C8_drawVideo (ctx : GpuContext) (video : Video)
    (hw : ctx.viewportW = ctx.canvasWidth) (hh : ctx.viewportH = ctx.canvasHeight) :
    (drawVideo ctx video).1.canvasWidth = video.videoWidth ∧
    (drawVideo ctx video).1.canvasHeight = video.videoHeight / 2 ∧
    (drawVideo ctx video).1.viewportW = video.videoWidth ∧
    (drawVideo ctx video).1.viewportH = video.videoHeight / 2 ∧
    ((drawVideo ctx video).2.reallocated = false ↔
      (ctx.canvasWidth = video.videoWidth ∧
       ctx.canvasHeight = video.videoHeight / 2)) ∧
    (drawVideo ctx video).2.uploadedTexture = ctx.texture ∧
    (drawVideo ctx video).1.texture = ctx.texture ∧
    (drawVideo ctx video).2.texturesCreated = 0 ∧
    (drawVideo ctx video).2.drawMode = DrawMode.triangles ∧
    (drawVideo ctx video).2.drawFirst = 0 ∧
    (drawVideo ctx video).2.drawCount = 6 := by
  unfold drawVideo
  dsimp only
  by_cases hr : (ctx.canvasWidth != video.videoWidth ||
      ctx.canvasHeight != video.videoHeight / 2) = true
  · rw [if_pos hr]
    refine ⟨rfl, rfl, rfl, rfl, ?_, rfl, rfl, rfl, rfl, rfl, rfl⟩
    rw [hr]
    constructor
    · intro hfalse
      cases hfalse
    · rintro ⟨h1, h2⟩
      exfalso
      revert hr
      simp [h1, h2]
  · rw [if_neg hr]
    have hr' := hr
    simp only [Bool.or_eq_true, not_or, bne_iff_ne, ne_eq, Decidable.not_not]
      at hr'
    refine ⟨hr'.1, hr'.2, hw.trans hr'.1, hh.trans hr'.2, ?_,
      rfl, rfl, rfl, rfl, rfl, rfl⟩
    simp [hr'.1, hr'.2]

/-- Witness for C8: drawing a 640×725 frame on a 300×150 surface. -/
theorem C8_drawVideo_witness :
    (drawVideo setupOkCtx v0).1.canvasWidth = 640 ∧
    (drawVideo setupOkCtx v0).1.canvasHeight = 362 ∧
    (drawVideo setupOkCtx v0).1.viewportH = 362 ∧
    (drawVideo setupOkCtx v0).2.reallocated = true ∧
    (drawVideo setupOkCtx v0).2.drawCount = 6 := by
  have h := C8_drawVideo setupOkCtx v0 rfl rfl
  refine ⟨?_, ?_, ?_, ?_, h.2.2.2.2.2.2.2.2.2.2⟩
  · rw [h.1]
    rfl
  · rw [h.2.1]
    rfl
  · rw [h.2.2.2.1]
    rfl
  · rcases hb : (drawVideo setupOkCtx v0).2.reallocated with _ | _
    · exact absurd ((h.2.2.2.2.1.mp hb).1) (by decide)
    · rfl

/-- A component holding the freshly set-up context. -/
def cCtx : Component := { cBase with context := some setupOkCtx }

/-- C9: a `premultipliedalpha` attribute change with a live context calls
`setPremultipliedAlpha` on it with "attribute present" (`newValue ≠ null`);
and on any context produced by `setupGLContext` — before any frame has been
drawn — `setPremultipliedAlpha` sets the uniform to 1/0 accordingly. -/
theorem C9_premult_attribute :
    (∀ (c : Component) (ctx : GpuContext) (nv : Option String),
      c.context = some ctx →
      attributeChangedCallback c "premultipliedalpha" nv =
        { c with context := some (setPremultipliedAlpha ctx nv.isSome) }) ∧
    (∀ (drv : GLDriver) (st : GLRes) (w h : Nat) (ctx : GpuContext),
      (setupGLContext drv st w h).2 = .ok ctx →
      ∀ b : Bool,
        (setPremultipliedAlpha ctx b).premultUniform =
          (if b then 1 else 0)) := by
  constructor
  · intro c ctx nv hctx
    unfold attributeChangedCallback
    rw [if_pos rfl, hctx]
  · intro drv st w h ctx hok b
    have hloc := (setupGLContext_ok_fields drv st w h ctx hok).1
    unfold setPremultipliedAlpha
    rw [if_pos hloc]

/-- Witness for C9 on a concrete context. -/
theorem C9_premult_attribute_witness :
    (attributeChangedCallback cCtx "premultipliedalpha" (some "")).context =
      some (setPremultipliedAlpha setupOkCtx true) ∧
    (setPremultipliedAlpha setupOkCtx true).premultUniform = 1 := by
  constructor
  · rw [C9_premult_attribute.1 cCtx setupOkCtx (some "") rfl]
    rfl
  · rw [C9_premult_attribute.2 okDriver {} 300 150 setupOkCtx rfl true]
    rfl

end StackedAlphaVideo
